import Mathlib

/-!
Shallow embedding of the query-safety and connection-lifecycle core of
pgAdminTUI: the classes SecurityGuard, QueryExecutor (src/core/query_executor.py)
and DatabaseConnection (src/core/connection_manager.py).

Modelling conventions:
  * Python strings are Lean String values; queries are treated as ASCII, so
    Python str.upper is Char.toUpper and str.strip drops the six Python
    whitespace characters.
  * A compiled regular expression of a SafetyRule is abstract user input, so a
    rule carries its matcher as a Boolean predicate on strings.  The handful
    of FIXED patterns hard-coded in the source (read-only prefixes, the
    suggest_safer_query patterns, the modifying keywords) are modelled
    explicitly, following Python re semantics for those concrete patterns.
  * Time stamps and durations are abstract naturals supplied by the
    environment; the database driver is an oracle mapping each statement the
    executor issues (numbered within one execute call) to an outcome.
  * Python exceptions are Except values; a function that can raise returns
    Except String.
-/

/-- The six characters Python str.strip removes. -/
def pySpace (c : Char) : Bool :=
  c = ' ' || c = '\t' || c = '\n' || c = '\r' || c = '\x0b' || c = '\x0c'

/-- Python str.strip for ASCII text. -/
def pyStrip (s : String) : String :=
  ⟨((s.data.dropWhile pySpace).reverse.dropWhile pySpace).reverse⟩

/-- Python str.upper for ASCII text. -/
def pyUpper (s : String) : String :=
  ⟨s.data.map Char.toUpper⟩

/-- Model of QuerySeverity (query_executor.py). -/
inductive QuerySeverity where
  | safe | low | medium | high | critical
deriving DecidableEq, Repr

/-- Model of SafetyRule: the compiled regular expression is abstracted as the
Boolean predicate `matcher`, standing for compiled_pattern.search. -/
structure SafetyRule where
  matcher : String → Bool
  severity : QuerySeverity
  message : String
  allow_with_confirmation : Bool := false

/-- SafetyRule.matches: search of the compiled pattern over the query. -/
def SafetyRule.matches (r : SafetyRule) (q : String) : Bool :=
  r.matcher q

/-- Model of the SecurityGuard state (rule lists and flags). -/
structure SecurityGuard where
  whitelist_rules : List SafetyRule := []
  blacklist_rules : List SafetyRule := []
  whitelist_enabled : Bool := true
  blacklist_enabled : Bool := true
  read_only_mode : Bool := false

/-- One whitelist entry of the YAML file: a pattern plus an optional
description, as read by load_whitelist. -/
structure WhitelistCmd where
  pattern : String
  description : Option String

/-- Model of SecurityGuard.load_whitelist, rule construction part: every rule
gets severity SAFE, the description (default empty) as message and
allow_with_confirmation True.  The regex compiler is passed in as an abstract
function from pattern text to matcher. -/
def load_whitelist (compile : String → String → Bool) (cmds : List WhitelistCmd) :
    List SafetyRule :=
  cmds.map fun c =>
    { matcher := compile c.pattern
      severity := QuerySeverity.safe
      message := c.description.getD ""
      allow_with_confirmation := true }

/-- Matches pattern REST after a dot-star: some position of the input, left of
any newline, where the needle starts (Python re, dot not matching newline). -/
def dotStarThen (needle : List Char) : List Char → Bool
  | [] => needle.isEmpty
  | c :: rest =>
    needle.isPrefixOf (c :: rest) || (c ≠ '\n' && dotStarThen needle rest)

/-- The fixed read-only allow-list of check_query: the eight anchored
case-insensitive patterns, applied with re.match to the stripped query. -/
def readOnlyAllowed (q : String) : Bool :=
  let u := (pyUpper q).data
  "SELECT".data.isPrefixOf u ||
  ("WITH".data.isPrefixOf u && dotStarThen "SELECT".data (u.drop 4)) ||
  "SHOW".data.isPrefixOf u ||
  "EXPLAIN".data.isPrefixOf u ||
  "\\".data.isPrefixOf u ||
  "BEGIN".data.isPrefixOf u ||
  "COMMIT".data.isPrefixOf u ||
  "ROLLBACK".data.isPrefixOf u

/-- Model of SecurityGuard.check_query.  Returns (is_safe, matched_rule,
message).  The query is stripped; in read-only mode a query outside the fixed
allow-list is rejected at once; then the blacklist (first match decides), then
the whitelist. -/
def check_query (g : SecurityGuard) (query : String) :
    Bool × Option SafetyRule × String :=
  let q := pyStrip query
  if g.read_only_mode && !(readOnlyAllowed q) then
    (false, none, "Read-only mode: Only SELECT queries are allowed")
  else
    match (if g.blacklist_enabled then
             g.blacklist_rules.find? (fun r => r.matches q) else none) with
    | some rule =>
      if rule.severity = QuerySeverity.critical ∨
         rule.severity = QuerySeverity.high then
        (false, some rule, rule.message)
      else if rule.allow_with_confirmation then
        (true, some rule, "⚠️  " ++ rule.message)
      else
        (false, some rule, rule.message)
    | none =>
      if g.whitelist_enabled && !g.whitelist_rules.isEmpty then
        match g.whitelist_rules.find? (fun r => r.matches q) with
        | some rule => (true, some rule, "Query allowed by whitelist")
        | none => (false, none, "Query not in whitelist")
      else
        (true, none, "Query allowed")

example : readOnlyAllowed "select * from t" = true := by decide
example : readOnlyAllowed "with x as (select 1) select 2" = true := by decide
example : readOnlyAllowed "DELETE FROM users" = false := by decide

/-! Models of the three fixed patterns of suggest_safer_query, following
Python re semantics (IGNORECASE, re.match anchoring, greedy and lazy
quantifier priorities for these concrete patterns). -/

/-- Word character of the regex class backslash-w, ASCII part. -/
def isWordChar (c : Char) : Bool :=
  ('a' ≤ c && c ≤ 'z') || ('A' ≤ c && c ≤ 'Z') || ('0' ≤ c && c ≤ '9') || c = '_'

/-- Consume a literal pattern piece case-insensitively; return the rest. -/
def stripLitCI : List Char → List Char → Option (List Char)
  | [], s => some s
  | _ :: _, [] => none
  | p :: ps, c :: cs =>
    if p.toUpper = c.toUpper then stripLitCI ps cs else none

/-- Consume one-or-more whitespace (maximal munch; safe because every
following pattern piece starts with a non-space character). -/
def wsPlus (s : List Char) : Option (List Char) :=
  let rest := s.dropWhile pySpace
  if rest.length = s.length then none else some rest

/-- Consume one-or-more word characters (maximal munch); return them and the
rest. -/
def wordPlus (s : List Char) : Option (List Char × List Char) :=
  let w := s.takeWhile isWordChar
  if w.isEmpty then none else some (w, s.dropWhile isWordChar)

/-- The pattern DELETE backslash-s+ FROM backslash-s+ (backslash-w+)
backslash-s* dollar, anchored at the start: the dollar with the preceding
optional whitespace holds exactly when the rest is all whitespace.  Returns
the captured table name. -/
def matchDeleteBare (s : List Char) : Option (List Char) := do
  let s1 ← stripLitCI "DELETE".data s
  let s2 ← wsPlus s1
  let s3 ← stripLitCI "FROM".data s2
  let s4 ← wsPlus s3
  let (tbl, s5) ← wordPlus s4
  if s5.all pySpace then some tbl else none

/-- The lazy tail of the UPDATE pattern: the shortest nonempty run of
non-newline characters followed by an all-whitespace rest (dollar after
optional whitespace) or a semicolon.  Returns the captured run. -/
def lazyDotTail : List Char → Option (List Char)
  | [] => none
  | c :: rest =>
    if c = '\n' then none
    else if rest.all pySpace || rest.head? = some ';' then some [c]
    else
      match lazyDotTail rest with
      | some p => some (c :: p)
      | none => none

/-- Backtracking over the greedy whitespace run before the lazy group of the
UPDATE pattern: try the longest run first, give characters back on failure,
at least one whitespace character stays consumed. -/
def wsBacktrack (s : List Char) : Nat → Option (List Char)
  | 0 => none
  | k + 1 =>
    match lazyDotTail (s.drop (k + 1)) with
    | some p => some p
    | none => wsBacktrack s k

/-- Substring test: the needle occurs somewhere in the haystack (Python
in-operator on strings). -/
def isSubList (needle : List Char) : List Char → Bool
  | [] => needle.isEmpty
  | c :: rest => needle.isPrefixOf (c :: rest) || isSubList needle rest

/-- The pattern UPDATE backslash-s+ (backslash-w+) backslash-s+ SET
backslash-s+ (.+?) then whitespace-dollar or semicolon, anchored.  Returns
the captured table name and SET clause. -/
def matchUpdateSet (s : List Char) : Option (List Char × List Char) := do
  let s1 ← stripLitCI "UPDATE".data s
  let s2 ← wsPlus s1
  let (tbl, s3) ← wordPlus s2
  let s4 ← wsPlus s3
  let s5 ← stripLitCI "SET".data s4
  let clause ← wsBacktrack s5 ((s5.takeWhile pySpace).length)
  pure (tbl, clause)

/-- The pattern DROP backslash-s+ (TABLE|DATABASE|SCHEMA) backslash-s+
(backslash-w+), anchored; only whether it matches is used. -/
def matchDropStmt (s : List Char) : Bool :=
  (do
    let s1 ← stripLitCI "DROP".data s
    let s2 ← wsPlus s1
    let s3 ← (stripLitCI "TABLE".data s2).orElse
      (fun _ => (stripLitCI "DATABASE".data s2).orElse
        (fun _ => stripLitCI "SCHEMA".data s2))
    let s4 ← wsPlus s3
    let (_, _) ← wordPlus s4
    pure ()).isSome

/-- Model of SecurityGuard.suggest_safer_query: collect the suggestions of
the three patterns, join with newlines, none if empty.  Applied to the
original (unstripped) query, as in execute. -/
def suggest_safer_query (query : String) : Option String :=
  let part1 : List String :=
    match matchDeleteBare query.data with
    | some tbl => ["DELETE FROM " ++ (⟨tbl⟩ : String) ++ " WHERE <condition>"]
    | none => []
  let part2 : List String :=
    match matchUpdateSet query.data with
    | some (tbl, clause) =>
      if isSubList "WHERE".data (pyUpper query).data then []
      else ["UPDATE " ++ (⟨tbl⟩ : String) ++ " SET " ++ (⟨clause⟩ : String) ++
            " WHERE <condition>"]
    | none => []
  let part3 : List String :=
    if matchDropStmt query.data then
      ["Consider using CASCADE or RESTRICT", "Make sure to backup before dropping"]
    else []
  let suggestions := part1 ++ part2 ++ part3
  if suggestions.isEmpty then none else some (String.intercalate "\n" suggestions)

example : suggest_safer_query "DELETE FROM users" =
  some "DELETE FROM users WHERE <condition>" := by decide
example : suggest_safer_query "SELECT 1" = none := by decide
example : suggest_safer_query "update t set a=1" =
  some "UPDATE t SET a=1 WHERE <condition>" := by decide

/-! The QueryExecutor model. -/

/-- Model of QueryResult.  Row data is a list of rows, each an association
list column-name to value (dict(zip(columns, row)) in the source);
execution_time and timestamp are abstract naturals. -/
structure QueryResult where
  success : Bool
  data : Option (List (List (String × String))) := none
  error : Option String := none
  rows_affected : Nat := 0
  execution_time : Nat := 0
  query : String := ""
  timestamp : Nat := 0
deriving DecidableEq, Repr

/-- The modifying keyword list of QueryExecutor. -/
def modifying_keywords : List String :=
  ["INSERT", "UPDATE", "DELETE", "CREATE", "DROP", "ALTER",
   "TRUNCATE", "GRANT", "REVOKE"]

/-- Model of QueryExecutor._is_modifying_query: upper-case, strip, test the
nine keyword beginnings. -/
def is_modifying_query (query : String) : Bool :=
  let qu := pyStrip (pyUpper query)
  modifying_keywords.any fun kw => kw.data.isPrefixOf qu.data

/-- The history update of execute: append, then pop the front element once
when the length passes 1000. -/
def pushHistory (h : List QueryResult) (r : QueryResult) : List QueryResult :=
  let h2 := h ++ [r]
  if h2.length > 1000 then h2.drop 1 else h2

/-- Observable events of one execute call: a confirmation-callback
invocation, the active-connection lookup, and each statement issued to the
driver. -/
inductive ExecEvent where
  | cbCall (query message : String)
  | getConn
  | stmt (s : String)
deriving DecidableEq, Repr

/-- Recognizer for confirmation-callback events in a trace. -/
def isCbEvent : ExecEvent → Bool
  | ExecEvent.cbCall _ _ => true
  | _ => false

/-- Outcome the driver oracle assigns to one issued statement: an exception
with its text, or success with the optional cursor description (column
names), the fetched rows, and the row count. -/
inductive ExecOutcome where
  | err (msg : String)
  | ok (descr : Option (List String)) (rows : List (List String)) (rowcount : Int)

/-- Environment of one execute call: the active-connection lookup result
(none when no record; the Bool tells whether its pool is non-null), the
driver oracle indexed by statement number within the call, the elapsed
duration and the current time. -/
structure ExecEnv where
  conn : Option Bool
  driver : Nat → String → List String → ExecOutcome
  elapsed : Nat := 0
  now : Nat := 0

/-- Mutable QueryExecutor state touched by execute. -/
structure ExecutorState where
  query_history : List QueryResult := []
  transaction_active : Bool := false
  dry_run_mode : Bool := false
  auto_transaction : Bool := true

/-- A confirmation callback: may raise (Except.error) or answer a Boolean. -/
def ConfirmCb := String → String → Except String Bool

/-- The safety prelude of execute (lines before the try block): the safety
check with suggestion-augmented denial, then the confirmation gate.  Returns
none to continue, some result for an early return; Except.error when the
callback raises (the source has no handler around it). -/
def safetyStage (g : SecurityGuard) (query : String) (skip_safety : Bool)
    (cb : Option ConfirmCb) (now : Nat) :
    Except String (Option QueryResult × List ExecEvent) :=
  if skip_safety then Except.ok (none, [])
  else
    let (is_safe, rule, message) := check_query g query
    if !is_safe then
      let error_msg :=
        match suggest_safer_query query with
        | some s => message ++ "\n\nSuggestion:\n" ++ s
        | none => message
      Except.ok (some { success := false, error := some error_msg,
                        query := query, timestamp := now }, [])
    else
      match rule, cb with
      | some r, some f =>
        if r.allow_with_confirmation then
          match f query r.message with
          | Except.error e => Except.error e
          | Except.ok b =>
            if b then Except.ok (none, [ExecEvent.cbCall query r.message])
            else Except.ok (some { success := false,
                                   error := some "Query cancelled by user",
                                   query := query, timestamp := now },
                            [ExecEvent.cbCall query r.message])
        else Except.ok (none, [])
      | _, _ => Except.ok (none, [])

/-- Build the successful QueryResult of execute from a driver outcome:
with a cursor description the rows become association lists and the count is
their number; otherwise rows_affected is max(rowcount, 0). -/
def mkSuccessResult (query : String) (descr : Option (List String))
    (rows : List (List String)) (rowcount : Int) (elapsed now : Nat) :
    QueryResult :=
  match descr with
  | some cols =>
    let d := rows.map fun row => cols.zip row
    { success := true, data := some d, rows_affected := d.length,
      execution_time := elapsed, query := query, timestamp := now }
  | none =>
    { success := true, data := none,
      rows_affected := if rowcount > 0 then rowcount.toNat else 0,
      execution_time := elapsed, query := query, timestamp := now }

/-- A failed QueryResult produced by the outer exception handler. -/
def mkFailResult (query : String) (e : String) (elapsed now : Nat) :
    QueryResult :=
  { success := false, error := some e, execution_time := elapsed,
    query := query, timestamp := now }

/-- Model of QueryExecutor.execute.  Returns the result (Except.error when
an unhandled exception escapes to the caller), the event trace, and the new
executor state.  Statement numbering follows issue order in the call; pool
connection acquisition is modelled as always succeeding. -/
def executeModel (g : SecurityGuard) (st : ExecutorState) (env : ExecEnv)
    (query : String) (params : Option (List String)) (skip_safety : Bool)
    (cb : Option ConfirmCb) :
    Except String QueryResult × List ExecEvent × ExecutorState :=
  match safetyStage g query skip_safety cb env.now with
  | Except.error e => (Except.error e, [], st)
  | Except.ok (some r, evs) => (Except.ok r, evs, st)
  | Except.ok (none, evs) =>
    if st.dry_run_mode then
      (Except.ok { success := true, error := some "DRY RUN: Query not executed",
                   query := query, execution_time := 0, timestamp := env.now },
       evs, st)
    else
      let evs1 := evs ++ [ExecEvent.getConn]
      match env.conn with
      | none =>
        (Except.ok { success := false, error := some "No active database connection",
                     query := query, timestamp := env.now }, evs1, st)
      | some hasPool =>
        if !hasPool then
          (Except.ok { success := false,
                       error := some "No active database connection",
                       query := query, timestamp := env.now }, evs1, st)
        else
          let needs_tx := st.auto_transaction && !st.transaction_active &&
                          is_modifying_query query
          let ps := params.getD []
          if needs_tx then
            match env.driver 0 "BEGIN" [] with
            | ExecOutcome.err e =>
              -- BEGIN is outside the inner try: the exception reaches the
              -- outer handler with no ROLLBACK issued.
              (Except.ok (mkFailResult query e env.elapsed env.now),
               evs1 ++ [ExecEvent.stmt "BEGIN"], st)
            | ExecOutcome.ok _ _ _ =>
              match env.driver 1 query ps with
              | ExecOutcome.err e =>
                -- inner handler: ROLLBACK, then re-raise into the outer one
                let evs2 := evs1 ++ [ExecEvent.stmt "BEGIN", ExecEvent.stmt query,
                                     ExecEvent.stmt "ROLLBACK"]
                match env.driver 2 "ROLLBACK" [] with
                | ExecOutcome.err e2 =>
                  (Except.ok (mkFailResult query e2 env.elapsed env.now), evs2, st)
                | ExecOutcome.ok _ _ _ =>
                  (Except.ok (mkFailResult query e env.elapsed env.now), evs2, st)
              | ExecOutcome.ok descr rows rowcount =>
                -- fetch succeeded; COMMIT is inside the inner try, so a
                -- COMMIT failure triggers ROLLBACK and the outer handler
                match env.driver 2 "COMMIT" [] with
                | ExecOutcome.err e =>
                  let evs2 := evs1 ++ [ExecEvent.stmt "BEGIN", ExecEvent.stmt query,
                                       ExecEvent.stmt "COMMIT", ExecEvent.stmt "ROLLBACK"]
                  match env.driver 3 "ROLLBACK" [] with
                  | ExecOutcome.err e2 =>
                    (Except.ok (mkFailResult query e2 env.elapsed env.now), evs2, st)
                  | ExecOutcome.ok _ _ _ =>
                    (Except.ok (mkFailResult query e env.elapsed env.now), evs2, st)
                | ExecOutcome.ok _ _ _ =>
                  let result := mkSuccessResult query descr rows rowcount
                    env.elapsed env.now
                  (Except.ok result,
                   evs1 ++ [ExecEvent.stmt "BEGIN", ExecEvent.stmt query,
                            ExecEvent.stmt "COMMIT"],
                   { st with query_history := pushHistory st.query_history result })
          else
            match env.driver 0 query ps with
            | ExecOutcome.err e =>
              (Except.ok (mkFailResult query e env.elapsed env.now),
               evs1 ++ [ExecEvent.stmt query], st)
            | ExecOutcome.ok descr rows rowcount =>
              let result := mkSuccessResult query descr rows rowcount
                env.elapsed env.now
              (Except.ok result, evs1 ++ [ExecEvent.stmt query],
               { st with query_history := pushHistory st.query_history result })

/-! The DatabaseConnection model (connection_manager.py). -/

/-- Model of ConnectionStatus. -/
inductive ConnectionStatus where
  | not_attempted | connecting | connected | disconnected | failed | reconnecting
deriving DecidableEq, Repr

/-- Mutable state of one DatabaseConnection record; the pool field holds an
abstract pool identifier when non-null.  retry_attempts is the immutable
config.retry_attempts carried along. -/
structure ConnState where
  status : ConnectionStatus := ConnectionStatus.not_attempted
  pool : Option Nat := none
  last_error : Option String := none
  last_connected : Option Nat := none
  last_health_check : Option Nat := none
  retry_count : Nat := 0
  retry_attempts : Nat := 3
deriving DecidableEq, Repr

/-- Where a connect() attempt fails, if it does.  After pool construction the
new pool object is already stored in self.pool, so a failure at open() or at
the probe statement leaves the new pool assigned. -/
inductive ConnectOutcome where
  | constructFail (e : String)
  | openFail (e : String)
  | testFail (e : String)
  | success
deriving DecidableEq, Repr

/-- Model of DatabaseConnection.connect.  The status is first set to
CONNECTING; on success pool is the freshly built pool, status CONNECTED,
last_error cleared, retry_count zeroed; on failure status FAILED, the error
recorded, retry_count incremented — and the pool field keeps whatever the
attempt left there. -/
def connectStep (s : ConnState) (newPool : Nat) (now : Nat)
    (o : ConnectOutcome) : Bool × ConnState :=
  match o with
  | ConnectOutcome.constructFail e =>
    (false, { s with status := ConnectionStatus.failed, last_error := some e,
                     retry_count := s.retry_count + 1 })
  | ConnectOutcome.openFail e =>
    (false, { s with pool := some newPool, status := ConnectionStatus.failed,
                     last_error := some e, retry_count := s.retry_count + 1 })
  | ConnectOutcome.testFail e =>
    (false, { s with pool := some newPool, status := ConnectionStatus.failed,
                     last_error := some e, retry_count := s.retry_count + 1 })
  | ConnectOutcome.success =>
    (true, { s with pool := some newPool, status := ConnectionStatus.connected,
                    last_connected := some now, last_error := none,
                    retry_count := 0 })

/-- Model of DatabaseConnection.disconnect: close and null the pool, set
status DISCONNECTED. -/
def disconnectStep (s : ConnState) : ConnState :=
  { s with pool := none, status := ConnectionStatus.disconnected }

/-- Model of DatabaseConnection.health_check: refuse unless a pool is held
and status is CONNECTED; a failed probe flips status to DISCONNECTED and
records the error but leaves the pool field untouched. -/
def healthCheckStep (s : ConnState) (now : Nat) (probeErr : Option String) :
    Bool × ConnState :=
  if s.pool = none ∨ s.status ≠ ConnectionStatus.connected then (false, s)
  else
    match probeErr with
    | none => (true, { s with last_health_check := some now })
    | some e =>
      (false, { s with status := ConnectionStatus.disconnected,
                       last_error := some e })

/-- Side effects of reconnect observable outside the record state. -/
inductive ConnEvent where
  | sleep
  | disconnectCall
  | connectCall
deriving DecidableEq, Repr

/-- Model of DatabaseConnection.reconnect: refuse (no state change, no sleep,
no connect) once retry_count has reached retry_attempts; otherwise set
RECONNECTING, sleep the backoff, disconnect, and re-run connect. -/
def reconnectStep (s : ConnState) (newPool : Nat) (now : Nat)
    (o : ConnectOutcome) : Bool × ConnState × List ConnEvent :=
  if s.retry_count ≥ s.retry_attempts then (false, s, [])
  else
    let s1 := { s with status := ConnectionStatus.reconnecting }
    let s2 := disconnectStep s1
    let (b, s3) := connectStep s2 newPool now o
    (b, s3, [ConnEvent.sleep, ConnEvent.disconnectCall, ConnEvent.connectCall])

/-- One operation on a DatabaseConnection record, with its oracle data. -/
inductive ConnOp where
  | connect (newPool : Nat) (now : Nat) (o : ConnectOutcome)
  | disconnect
  | healthCheck (now : Nat) (probeErr : Option String)
  | reconnect (newPool : Nat) (now : Nat) (o : ConnectOutcome)
deriving DecidableEq, Repr

/-- Apply one operation to the record state. -/
def applyConnOp (s : ConnState) (op : ConnOp) : ConnState :=
  match op with
  | ConnOp.connect p n o => (connectStep s p n o).2
  | ConnOp.disconnect => disconnectStep s
  | ConnOp.healthCheck n e => (healthCheckStep s n e).2
  | ConnOp.reconnect p n o => (reconnectStep s p n o).2.1

/-- Run a sequence of operations from a state. -/
def runConnOps (s : ConnState) (ops : List ConnOp) : ConnState :=
  ops.foldl applyConnOp s

/-! Theorems about the claims. -/

/-- C2: in read-only mode a query whose stripped text does not match the
fixed allow-list of prefixes is rejected with the read-only message, with no
matched rule, whatever the whitelist and blacklist hold; in particular
DELETE FROM users is always rejected in read-only mode. -/
theorem readOnly_rejects_before_rules (g : SecurityGuard) (q : String)
    (hro : g.read_only_mode = true)
    (hnm : readOnlyAllowed (pyStrip q) = false) :
    check_query g q =
      (false, none, "Read-only mode: Only SELECT queries are allowed") ∧
    (check_query g "DELETE FROM users").1 = false := by
  constructor
  · simp [check_query, hro, hnm]
  · have h2 : readOnlyAllowed (pyStrip "DELETE FROM users") = false := by decide
    simp [check_query, hro, h2]

/-- Witness for C2 at a concrete guard and query. -/
theorem readOnly_rejects_before_rules_witness :
    check_query { read_only_mode := true } "DELETE FROM users" =
      (false, none, "Read-only mode: Only SELECT queries are allowed") ∧
    (check_query { read_only_mode := true } "DELETE FROM users").1 = false :=
  readOnly_rejects_before_rules { read_only_mode := true } "DELETE FROM users"
    rfl (by decide)

/-- C1: with the blacklist enabled and read-only mode off, the first
blacklist rule matching the stripped query decides: CRITICAL or HIGH severity
rejects with the rule message even when the rule allows confirmation, and
execute then never invokes the confirmation callback; otherwise a match that
allows confirmation accepts with the warning-prefixed message, and any other
match rejects with the rule message. -/
theorem blacklist_first_match_decides (g : SecurityGuard) (st : ExecutorState)
    (env : ExecEnv) (q : String) (params : Option (List String))
    (cb : Option ConfirmCb) (r : SafetyRule)
    (hro : g.read_only_mode = false)
    (hbe : g.blacklist_enabled = true)
    (hfind : g.blacklist_rules.find? (fun ru => ru.matches (pyStrip q)) = some r) :
    ((r.severity = QuerySeverity.critical ∨ r.severity = QuerySeverity.high) →
      check_query g q = (false, some r, r.message) ∧
      (executeModel g st env q params false cb).2.1.filter isCbEvent = []) ∧
    (r.severity ≠ QuerySeverity.critical → r.severity ≠ QuerySeverity.high →
      r.allow_with_confirmation = true →
      check_query g q = (true, some r, "⚠️  " ++ r.message)) ∧
    (r.severity ≠ QuerySeverity.critical → r.severity ≠ QuerySeverity.high →
      r.allow_with_confirmation = false →
      check_query g q = (false, some r, r.message)) := by
  refine ⟨fun hsev => ?_, fun hc hh ha => ?_, fun hc hh ha => ?_⟩
  · have hchk : check_query g q = (false, some r, r.message) := by
      simp [check_query, hro, hbe, hfind, hsev]
    refine ⟨hchk, ?_⟩
    simp [executeModel, safetyStage, hchk]
  · simp [check_query, hro, hbe, hfind, hc, hh, ha]
  · simp [check_query, hro, hbe, hfind, hc, hh, ha]

/-- C7: a query the safety check accepts through a rule that allows
confirmation, with a supplied callback answering false, yields the failed
cancelled-by-user result, an event trace holding only the callback call (so
no connection lookup and no statement), and an unchanged executor state. -/
theorem declined_confirmation_cancels (g : SecurityGuard) (st : ExecutorState)
    (env : ExecEnv) (q : String) (params : Option (List String))
    (f : ConfirmCb) (r : SafetyRule) (m : String)
    (hchk : check_query g q = (true, some r, m))
    (hconf : r.allow_with_confirmation = true)
    (hf : f q r.message = Except.ok false) :
    executeModel g st env q params false (some f) =
      (Except.ok { success := false, error := some "Query cancelled by user",
                   query := q, timestamp := env.now },
       [ExecEvent.cbCall q r.message], st) := by
  simp [executeModel, safetyStage, hchk, hconf, hf]

/-- A driver oracle on which every statement succeeds with no rows. -/
def envOk : ExecEnv :=
  { conn := some true, driver := fun _ _ _ => ExecOutcome.ok none [] 0 }

/-- A critical blacklist rule matching every query, allowing confirmation. -/
def ruleCrit : SafetyRule :=
  { matcher := fun _ => true, severity := QuerySeverity.critical,
    message := "Dropping databases is forbidden",
    allow_with_confirmation := true }

/-- Guard holding only the critical catch-all blacklist rule. -/
def guardCrit : SecurityGuard := { blacklist_rules := [ruleCrit] }

/-- Witness for C1: the critical rule rejects DROP DATABASE prod although it
allows confirmation, and the execute trace holds no callback event. -/
theorem blacklist_first_match_decides_witness :
    check_query guardCrit "DROP DATABASE prod" =
      (false, some ruleCrit, ruleCrit.message) ∧
    (executeModel guardCrit {} envOk "DROP DATABASE prod" none false
      none).2.1.filter isCbEvent = [] :=
  (blacklist_first_match_decides guardCrit {} envOk "DROP DATABASE prod"
    none none ruleCrit rfl rfl rfl).1 (Or.inl rfl)

/-- A medium-severity blacklist rule matching every query, allowing
confirmation. -/
def ruleConf : SafetyRule :=
  { matcher := fun _ => true, severity := QuerySeverity.medium,
    message := "Be careful", allow_with_confirmation := true }

/-- Guard holding only the medium catch-all blacklist rule. -/
def guardConf : SecurityGuard := { blacklist_rules := [ruleConf] }

/-- Witness for C7: a declined confirmation cancels the query with no
database interaction. -/
theorem declined_confirmation_cancels_witness :
    executeModel guardConf {} envOk "DELETE FROM t WHERE id = 1" none false
      (some fun _ _ => Except.ok false) =
      (Except.ok { success := false, error := some "Query cancelled by user",
                   query := "DELETE FROM t WHERE id = 1", timestamp := 0 },
       [ExecEvent.cbCall "DELETE FROM t WHERE id = 1" ruleConf.message], {}) :=
  declined_confirmation_cancels guardConf {} envOk "DELETE FROM t WHERE id = 1"
    none (fun _ _ => Except.ok false) ruleConf ("⚠️  " ++ ruleConf.message)
    rfl rfl rfl

/-- Folding the history update keeps exactly the most recent 1000 results:
from any state within the cap, the fold equals dropping all but the last
1000 entries of the concatenation. -/
theorem pushHistory_foldl (rs : List QueryResult) :
    ∀ h : List QueryResult, h.length ≤ 1000 →
      List.foldl pushHistory h rs = (h ++ rs).drop ((h ++ rs).length - 1000) := by
  induction rs with
  | nil =>
    intro h hle
    simp [Nat.sub_eq_zero_of_le hle]
  | cons r t ih =>
    intro h hle
    rw [List.foldl_cons]
    by_cases hc : h.length = 1000
    · have hpush : pushHistory h r = (h ++ [r]).drop 1 := by
        simp [pushHistory, hc]
      have hlen : ((h ++ [r]).drop 1).length ≤ 1000 := by
        simp [hc]
      rw [hpush, ih _ hlen]
      have e1 : (h ++ [r]).drop 1 ++ t = (h ++ r :: t).drop 1 := by
        have e0 : ((h ++ [r]) ++ t).drop 1 = (h ++ [r]).drop 1 ++ t :=
          List.drop_append_of_le_length (by simp)
        rw [← e0, List.append_assoc]
        simp
      rw [e1]
      have e2 : ((h ++ r :: t).drop 1).length - 1000 = t.length := by
        simp only [List.length_drop, List.length_append, List.length_cons, hc]
        omega
      rw [e2, List.drop_drop]
      have e3 : (h ++ r :: t).length - 1000 = 1 + t.length := by
        simp only [List.length_append, List.length_cons, hc]
        omega
      rw [e3]
    · have hlt : h.length < 1000 := lt_of_le_of_ne hle hc
      have hcond : ¬ ((h ++ [r]).length > 1000) := by
        simp only [List.length_append, List.length_cons, List.length_nil]
        omega
      have hpush : pushHistory h r = h ++ [r] := by
        simp only [pushHistory]
        exact if_neg hcond
      have hlen : (h ++ [r]).length ≤ 1000 := by
        simp only [List.length_append, List.length_cons, List.length_nil]
        omega
      rw [hpush, ih _ hlen, List.append_assoc]
      simp

/-- C8: the history never exceeds 1000 entries, and eviction is FIFO: folding
1500 results into an empty history leaves exactly the most recent 1000. -/
theorem history_cap_fifo :
    (∀ rs : List QueryResult, (List.foldl pushHistory [] rs).length ≤ 1000) ∧
    (∀ rs : List QueryResult, rs.length = 1500 →
      List.foldl pushHistory [] rs = rs.drop 500) := by
  constructor
  · intro rs
    rw [pushHistory_foldl rs [] (by simp)]
    simp only [List.nil_append, List.length_drop]
    omega
  · intro rs h15
    rw [pushHistory_foldl rs [] (by simp)]
    simp only [List.nil_append, h15]

/-- Witness for C8 on a concrete list of 1500 results. -/
theorem history_cap_fifo_witness :
    List.foldl pushHistory []
        (List.replicate 1500 ({ success := true } : QueryResult)) =
      (List.replicate 1500 ({ success := true } : QueryResult)).drop 500 :=
  history_cap_fifo.2 _ (List.length_replicate 1500 _)

/-- Initial state of a freshly registered DatabaseConnection record. -/
def initConn : ConnState := {}

/-- C5 counterexample: one connect() that fails after pool construction (at
pool open) leaves the pool field non-null while the status is FAILED, so the
pool-iff-CONNECTED invariant is false for this record and operation
sequence. -/
theorem pool_iff_connected_cex :
    ¬ ((runConnOps initConn [ConnOp.connect 7 0 (ConnectOutcome.openFail "boom")]).pool
        ≠ none ↔
       (runConnOps initConn [ConnOp.connect 7 0 (ConnectOutcome.openFail "boom")]).status
        = ConnectionStatus.connected) := by
  decide

/-- The direction of the invariant the code does maintain. -/
def ConnInv (s : ConnState) : Prop :=
  s.status = ConnectionStatus.connected → s.pool ≠ none

/-- Every operation preserves the CONNECTED-implies-pool invariant. -/
theorem connInv_step (s : ConnState) (op : ConnOp) (h : ConnInv s) :
    ConnInv (applyConnOp s op) := by
  cases op with
  | connect p n o =>
    cases o <;> simp [applyConnOp, connectStep, ConnInv]
  | disconnect =>
    simp [applyConnOp, disconnectStep, ConnInv]
  | healthCheck n e =>
    by_cases hc : s.pool = none ∨ s.status ≠ ConnectionStatus.connected
    · simpa [applyConnOp, healthCheckStep, hc] using h
    · cases e <;> simp_all [applyConnOp, healthCheckStep, hc, ConnInv]
  | reconnect p n o =>
    by_cases hr : s.retry_count ≥ s.retry_attempts
    · simpa [applyConnOp, reconnectStep, hr] using h
    · cases o <;> simp [applyConnOp, reconnectStep, hr, connectStep,
        disconnectStep, ConnInv]

/-- C5 amended: after every sequence of connect, disconnect, health_check and
reconnect operations on a fresh record, status CONNECTED implies the pool
field is non-null (the converse direction fails, see the counterexample). -/
theorem connected_implies_pool (ops : List ConnOp)
    (h : (runConnOps initConn ops).status = ConnectionStatus.connected) :
    (runConnOps initConn ops).pool ≠ none := by
  suffices hinv : ConnInv (runConnOps initConn ops) from hinv h
  have hbase : ConnInv initConn := by simp [ConnInv, initConn]
  clear h
  induction ops using List.reverseRecOn with
  | nil => exact hbase
  | append_singleton t op ih =>
    have : runConnOps initConn (t ++ [op]) = applyConnOp (runConnOps initConn t) op := by
      simp [runConnOps]
    rw [this]
    exact connInv_step _ op ih

/-- Witness for C5 amended: after one successful connect the status is
CONNECTED and the pool is non-null. -/
theorem connected_implies_pool_witness :
    (runConnOps initConn [ConnOp.connect 5 0 ConnectOutcome.success]).pool ≠ none :=
  connected_implies_pool [ConnOp.connect 5 0 ConnectOutcome.success] (by decide)

/-- Recognizer for failed connect outcomes. -/
def isFailOutcome : ConnectOutcome → Bool
  | ConnectOutcome.success => false
  | _ => true

/-- C6: a successful connect zeroes retry_count; every failed connect
increments it by exactly one and returns false; and once retry_count has
reached retry_attempts, reconnect returns false with the state unchanged and
an empty side-effect trace (no sleep, no disconnect, no connect). -/
theorem retry_count_discipline (s : ConnState) (p n : Nat) (o : ConnectOutcome) :
    (connectStep s p n ConnectOutcome.success).2.retry_count = 0 ∧
    (isFailOutcome o = true →
      (connectStep s p n o).2.retry_count = s.retry_count + 1 ∧
      (connectStep s p n o).1 = false) ∧
    (s.retry_count ≥ s.retry_attempts →
      reconnectStep s p n o = (false, s, [])) := by
  refine ⟨by simp [connectStep], fun hf => ?_, fun hr => ?_⟩
  · cases o <;> simp_all [connectStep, isFailOutcome]
  · simp [reconnectStep, hr]

/-- Witness for C6 at a concrete exhausted record. -/
theorem retry_count_discipline_witness :
    (connectStep { retry_count := 3 } 1 0 ConnectOutcome.success).2.retry_count = 0 ∧
    ((connectStep { retry_count := 3 } 1 0 (ConnectOutcome.testFail "x")).2.retry_count
        = 3 + 1 ∧
      (connectStep { retry_count := 3 } 1 0 (ConnectOutcome.testFail "x")).1 = false) ∧
    reconnectStep { retry_count := 3 } 1 0 (ConnectOutcome.testFail "x") =
      (false, { retry_count := 3 }, []) :=
  ⟨(retry_count_discipline { retry_count := 3 } 1 0 (ConnectOutcome.testFail "x")).1,
   (retry_count_discipline { retry_count := 3 } 1 0 (ConnectOutcome.testFail "x")).2.1
     (by decide),
   (retry_count_discipline { retry_count := 3 } 1 0 (ConnectOutcome.testFail "x")).2.2
     (by decide)⟩

/-- C3: when the safety prelude lets the query through, a dry run is off and
a pooled connection is active, a modifying query under auto_transaction with
no active executor transaction is wrapped: BEGIN before the statement and
COMMIT after success, ROLLBACK and a failed result carrying the original
error when the statement raises; and when the wrap condition fails the trace
holds the bare statement with no BEGIN, COMMIT or ROLLBACK. -/
theorem auto_transaction_wrap (g : SecurityGuard) (st : ExecutorState)
    (env : ExecEnv) (q : String) (params : Option (List String))
    (skip : Bool) (cb : Option ConfirmCb) (evs : List ExecEvent)
    (hsafe : safetyStage g q skip cb env.now = Except.ok (none, evs))
    (hdry : st.dry_run_mode = false)
    (hconn : env.conn = some true) :
    (st.auto_transaction = true → st.transaction_active = false →
     is_modifying_query q = true →
      (∀ d0 r0 c0 d1 r1 c1 d2 r2 c2,
        env.driver 0 "BEGIN" [] = ExecOutcome.ok d0 r0 c0 →
        env.driver 1 q (params.getD []) = ExecOutcome.ok d1 r1 c1 →
        env.driver 2 "COMMIT" [] = ExecOutcome.ok d2 r2 c2 →
        executeModel g st env q params skip cb =
          (Except.ok (mkSuccessResult q d1 r1 c1 env.elapsed env.now),
           evs ++ [ExecEvent.getConn, ExecEvent.stmt "BEGIN", ExecEvent.stmt q,
                   ExecEvent.stmt "COMMIT"],
           { st with query_history := (pushHistory st.query_history
               (mkSuccessResult q d1 r1 c1 env.elapsed env.now)) })) ∧
      (∀ d0 r0 c0 e d2 r2 c2,
        env.driver 0 "BEGIN" [] = ExecOutcome.ok d0 r0 c0 →
        env.driver 1 q (params.getD []) = ExecOutcome.err e →
        env.driver 2 "ROLLBACK" [] = ExecOutcome.ok d2 r2 c2 →
        executeModel g st env q params skip cb =
          (Except.ok (mkFailResult q e env.elapsed env.now),
           evs ++ [ExecEvent.getConn, ExecEvent.stmt "BEGIN", ExecEvent.stmt q,
                   ExecEvent.stmt "ROLLBACK"], st))) ∧
    ((st.auto_transaction && !st.transaction_active && is_modifying_query q)
        = false →
      (executeModel g st env q params skip cb).2.1 =
        evs ++ [ExecEvent.getConn, ExecEvent.stmt q]) := by
  constructor
  · intro hauto hact hmod
    constructor
    · intro d0 r0 c0 d1 r1 c1 d2 r2 c2 hb hq hcm
      simp [executeModel, hsafe, hdry, hconn, hauto, hact, hmod, hb, hq, hcm]
    · intro d0 r0 c0 e d2 r2 c2 hb hq hrb
      simp [executeModel, hsafe, hdry, hconn, hauto, hact, hmod, hb, hq, hrb]
  · intro hneg
    cases hd : env.driver 0 q (params.getD []) with
    | err e => simp [executeModel, hsafe, hdry, hconn, hneg, hd]
    | ok descr rows rowcount => simp [executeModel, hsafe, hdry, hconn, hneg, hd]

/-- Witness for C3: a concrete INSERT on an all-success driver is wrapped in
BEGIN and COMMIT. -/
theorem auto_transaction_wrap_witness :
    executeModel {} {} envOk "INSERT INTO t VALUES (1)" none true none =
      (Except.ok (mkSuccessResult "INSERT INTO t VALUES (1)" none [] 0 0 0),
       [ExecEvent.getConn, ExecEvent.stmt "BEGIN",
        ExecEvent.stmt "INSERT INTO t VALUES (1)", ExecEvent.stmt "COMMIT"],
       { query_history := (pushHistory []
           (mkSuccessResult "INSERT INTO t VALUES (1)" none [] 0 0 0)) }) :=
  ((auto_transaction_wrap {} {} envOk "INSERT INTO t VALUES (1)" none true none
      [] rfl rfl rfl).1 rfl rfl (by decide)).1
    none [] 0 none [] 0 none [] 0 rfl rfl rfl

/-- C4 counterexample: a confirmation callback that raises propagates out of
execute, because the callback await stands before the try block: on a guard
whose matching rule allows confirmation, executeModel yields Except.error,
not a QueryResult. -/
theorem execute_never_raises_cex :
    (executeModel guardConf {} envOk "DELETE FROM t" none false
      (some fun _ _ => Except.error "callback boom")).1 =
      Except.error "callback boom" := by
  rfl

/-- Under a never-raising callback the safety prelude cannot raise. -/
theorem safetyStage_ok_of_cb (g : SecurityGuard) (q : String) (skip : Bool)
    (cb : Option ConfirmCb) (now : Nat)
    (hcb : ∀ f, cb = some f → ∀ x y, ∃ b, f x y = Except.ok b) :
    ∃ out, safetyStage g q skip cb now = Except.ok out := by
  cases skip with
  | true => exact ⟨(none, []), by simp [safetyStage]⟩
  | false =>
    rcases hchk : check_query g q with ⟨s, ru, m⟩
    cases s with
    | false => exact ⟨_, by simp [safetyStage, hchk]; rfl⟩
    | true =>
      cases ru with
      | none => exact ⟨(none, []), by simp [safetyStage, hchk]⟩
      | some r =>
        cases cb with
        | none => exact ⟨(none, []), by simp [safetyStage, hchk]⟩
        | some f =>
          by_cases ha : r.allow_with_confirmation
          · obtain ⟨b, hb⟩ := hcb f rfl q r.message
            cases b with
            | true => exact ⟨_, by simp [safetyStage, hchk, ha, hb]; rfl⟩
            | false => exact ⟨_, by simp [safetyStage, hchk, ha, hb]; rfl⟩
          · exact ⟨(none, []), by
              simp only [Bool.not_eq_true] at ha
              simp [safetyStage, hchk, ha]⟩

/-- C4 amended: provided the confirmation callback never raises, execute
never raises to its caller; and a driver exception during (unwrapped)
statement execution is caught and converted into a failed QueryResult
carrying the exception text and the elapsed time. -/
theorem execute_catches_exceptions (g : SecurityGuard) (st : ExecutorState)
    (env : ExecEnv) (q : String) (params : Option (List String)) (skip : Bool)
    (cb : Option ConfirmCb)
    (hcb : ∀ f, cb = some f → ∀ x y, ∃ b, f x y = Except.ok b) :
    (∃ r, (executeModel g st env q params skip cb).1 = Except.ok r) ∧
    (∀ e evs, safetyStage g q skip cb env.now = Except.ok (none, evs) →
      st.dry_run_mode = false → env.conn = some true →
      (st.auto_transaction && !st.transaction_active && is_modifying_query q)
        = false →
      env.driver 0 q (params.getD []) = ExecOutcome.err e →
      (executeModel g st env q params skip cb).1 =
        Except.ok { success := false, error := some e,
                    execution_time := env.elapsed, query := q,
                    timestamp := env.now }) := by
  constructor
  · obtain ⟨out, hout⟩ := safetyStage_ok_of_cb g q skip cb env.now hcb
    obtain ⟨o, evs⟩ := out
    cases o with
    | some r => exact ⟨r, by simp [executeModel, hout]⟩
    | none =>
      by_cases hd : st.dry_run_mode = true
      · exact ⟨_, by simp [executeModel, hout, hd]; rfl⟩
      · have hd2 : st.dry_run_mode = false := by
          revert hd; cases st.dry_run_mode <;> simp
        cases hc : env.conn with
        | none => exact ⟨_, by simp [executeModel, hout, hd2, hc]; rfl⟩
        | some hp =>
          cases hp with
          | false => exact ⟨_, by simp [executeModel, hout, hd2, hc]; rfl⟩
          | true =>
            by_cases hneeds :
                (st.auto_transaction && !st.transaction_active &&
                  is_modifying_query q) = true
            · cases hb : env.driver 0 "BEGIN" [] with
              | err e =>
                exact ⟨_, by simp [executeModel, hout, hd2, hc, hneeds, hb]; rfl⟩
              | ok d0 r0 c0 =>
                cases hq : env.driver 1 q (params.getD []) with
                | err e =>
                  cases hr : env.driver 2 "ROLLBACK" [] with
                  | err e2 =>
                    exact ⟨_, by
                      simp [executeModel, hout, hd2, hc, hneeds, hb, hq, hr]; rfl⟩
                  | ok d2 r2 c2 =>
                    exact ⟨_, by
                      simp [executeModel, hout, hd2, hc, hneeds, hb, hq, hr]; rfl⟩
                | ok d1 r1 c1 =>
                  cases hcm : env.driver 2 "COMMIT" [] with
                  | err e =>
                    cases hr : env.driver 3 "ROLLBACK" [] with
                    | err e2 =>
                      exact ⟨_, by
                        simp [executeModel, hout, hd2, hc, hneeds, hb, hq, hcm, hr]
                        rfl⟩
                    | ok d3 r3 c3 =>
                      exact ⟨_, by
                        simp [executeModel, hout, hd2, hc, hneeds, hb, hq, hcm, hr]
                        rfl⟩
                  | ok d2 r2 c2 =>
                    exact ⟨_, by
                      simp [executeModel, hout, hd2, hc, hneeds, hb, hq, hcm]; rfl⟩
            · have hneeds2 :
                  (st.auto_transaction && !st.transaction_active &&
                    is_modifying_query q) = false := by
                simp only [Bool.not_eq_true] at hneeds; exact hneeds
              cases hq : env.driver 0 q (params.getD []) with
              | err e =>
                exact ⟨_, by simp [executeModel, hout, hd2, hc, hneeds2, hq]; rfl⟩
              | ok d1 r1 c1 =>
                exact ⟨_, by simp [executeModel, hout, hd2, hc, hneeds2, hq]; rfl⟩
  · intro e evs hsafe hdry hconn hneeds hdrv
    simp [executeModel, hsafe, hdry, hconn, hneeds, hdrv, mkFailResult]

/-- Driver oracle raising db down on every statement, with elapsed time 7. -/
def envErr : ExecEnv :=
  { conn := some true, driver := fun _ _ _ => ExecOutcome.err "db down",
    elapsed := 7 }

/-- Witness for C4 amended: a failing SELECT on the default guard comes back
as a failed result carrying the driver error text and the elapsed time. -/
theorem execute_catches_exceptions_witness :
    (executeModel {} {} envErr "SELECT 1" none false none).1 =
      Except.ok { success := false, error := some "db down",
                  execution_time := 7, query := "SELECT 1", timestamp := 0 } :=
  (execute_catches_exceptions {} {} envErr "SELECT 1" none false none
    (fun f hf => nomatch hf)).2 "db down" [] rfl rfl rfl (by decide) rfl

/-- Guard with read-only mode on and no rules. -/
def guardRO : SecurityGuard := { read_only_mode := true }

/-- C9 counterexample: a safety-rejected query returns a failed QueryResult,
yet the history stays empty — the result is returned without being appended,
against the every-result-is-appended claim. -/
theorem history_append_cex :
    (executeModel guardRO {} envOk "FOO bar" none false none).2.2.query_history
        = [] ∧
    (executeModel guardRO {} envOk "FOO bar" none false none).1 =
      Except.ok { success := false,
                  error := some "Read-only mode: Only SELECT queries are allowed",
                  query := "FOO bar", timestamp := 0 } :=
  ⟨rfl, rfl⟩

/-- C9 amended: the history is updated exactly on the successful-execution
path: either execute leaves the history unchanged, or it returns a
successful QueryResult (with no error text) and appends precisely that
result; safety rejections, cancellations, dry runs, missing connections and
execution errors are returned without being appended. -/
theorem history_append_only_on_success (g : SecurityGuard) (st : ExecutorState)
    (env : ExecEnv) (q : String) (params : Option (List String)) (skip : Bool)
    (cb : Option ConfirmCb) :
    ((executeModel g st env q params skip cb).2.2.query_history
        = st.query_history) ∨
    (∃ r, (executeModel g st env q params skip cb).1 = Except.ok r ∧
      r.success = true ∧ r.error = none ∧
      (executeModel g st env q params skip cb).2.2.query_history =
        pushHistory st.query_history r) := by
  cases hout : safetyStage g q skip cb env.now with
  | error e => left; simp [executeModel, hout]
  | ok out =>
    obtain ⟨o, evs⟩ := out
    cases o with
    | some r => left; simp [executeModel, hout]
    | none =>
      by_cases hd : st.dry_run_mode = true
      · left; simp [executeModel, hout, hd]
      · have hd2 : st.dry_run_mode = false := by
          revert hd; cases st.dry_run_mode <;> simp
        cases hc : env.conn with
        | none => left; simp [executeModel, hout, hd2, hc]
        | some hp =>
          cases hp with
          | false => left; simp [executeModel, hout, hd2, hc]
          | true =>
            by_cases hneeds :
                (st.auto_transaction && !st.transaction_active &&
                  is_modifying_query q) = true
            · cases hb : env.driver 0 "BEGIN" [] with
              | err e => left; simp [executeModel, hout, hd2, hc, hneeds, hb]
              | ok d0 r0 c0 =>
                cases hq : env.driver 1 q (params.getD []) with
                | err e =>
                  cases hr : env.driver 2 "ROLLBACK" [] <;>
                    · left
                      simp [executeModel, hout, hd2, hc, hneeds, hb, hq, hr]
                | ok d1 r1 c1 =>
                  cases hcm : env.driver 2 "COMMIT" [] with
                  | err e =>
                    cases hr : env.driver 3 "ROLLBACK" [] <;>
                      · left
                        simp [executeModel, hout, hd2, hc, hneeds, hb, hq, hcm, hr]
                  | ok d2 r2 c2 =>
                    right
                    refine ⟨mkSuccessResult q d1 r1 c1 env.elapsed env.now,
                      ?_, ?_, ?_, ?_⟩
                    · simp [executeModel, hout, hd2, hc, hneeds, hb, hq, hcm]
                    · cases d1 <;> simp [mkSuccessResult]
                    · cases d1 <;> simp [mkSuccessResult]
                    · simp [executeModel, hout, hd2, hc, hneeds, hb, hq, hcm]
            · have hneeds2 :
                  (st.auto_transaction && !st.transaction_active &&
                    is_modifying_query q) = false := by
                simp only [Bool.not_eq_true] at hneeds; exact hneeds
              cases hq : env.driver 0 q (params.getD []) with
              | err e => left; simp [executeModel, hout, hd2, hc, hneeds2, hq]
              | ok d1 r1 c1 =>
                right
                refine ⟨mkSuccessResult q d1 r1 c1 env.elapsed env.now,
                  ?_, ?_, ?_, ?_⟩
                · simp [executeModel, hout, hd2, hc, hneeds2, hq]
                · cases d1 <;> simp [mkSuccessResult]
                · cases d1 <;> simp [mkSuccessResult]
                · simp [executeModel, hout, hd2, hc, hneeds2, hq]

/-- C10: every rule built by load_whitelist allows confirmation at severity
SAFE; consequently a query the guard accepts purely through a loaded
whitelist rule (the blacklist not deciding) still drives execute into the
confirmation callback, and a declined callback cancels the whitelisted
query. -/
theorem whitelist_rules_require_confirmation :
    (∀ (compile : String → String → Bool) (cmds : List WhitelistCmd)
        (r : SafetyRule), r ∈ load_whitelist compile cmds →
      r.allow_with_confirmation = true ∧ r.severity = QuerySeverity.safe) ∧
    (∀ (g : SecurityGuard) (st : ExecutorState) (env : ExecEnv) (q : String)
        (params : Option (List String)) (f : ConfirmCb) (r : SafetyRule)
        (compile : String → String → Bool) (cmds : List WhitelistCmd),
      g.read_only_mode = false →
      (if g.blacklist_enabled then
         g.blacklist_rules.find? (fun ru => ru.matches (pyStrip q))
       else none) = none →
      g.whitelist_enabled = true →
      g.whitelist_rules = load_whitelist compile cmds →
      g.whitelist_rules.find? (fun ru => ru.matches (pyStrip q)) = some r →
      f q r.message = Except.ok false →
      check_query g q = (true, some r, "Query allowed by whitelist") ∧
      ExecEvent.cbCall q r.message ∈
        (executeModel g st env q params false (some f)).2.1 ∧
      (executeModel g st env q params false (some f)).1 =
        Except.ok { success := false, error := some "Query cancelled by user",
                    query := q, timestamp := env.now }) := by
  have hpart1 : ∀ (compile : String → String → Bool) (cmds : List WhitelistCmd)
      (r : SafetyRule), r ∈ load_whitelist compile cmds →
      r.allow_with_confirmation = true ∧ r.severity = QuerySeverity.safe := by
    intro compile cmds r hr
    simp only [load_whitelist, List.mem_map] at hr
    obtain ⟨c, _, hc⟩ := hr
    rw [← hc]
    exact ⟨rfl, rfl⟩
  refine ⟨hpart1, ?_⟩
  intro g st env q params f r compile cmds hro hbl hwe hwl hfind hf
  have hempty : g.whitelist_rules.isEmpty = false := by
    cases hgw : g.whitelist_rules with
    | nil => rw [hgw] at hfind; simp at hfind
    | cons a l => simp
  have hchk : check_query g q = (true, some r, "Query allowed by whitelist") := by
    simp [check_query, hro, hbl, hwe, hfind, hempty]
  have hconf : r.allow_with_confirmation = true := by
    have hmem : r ∈ g.whitelist_rules := List.mem_of_find?_eq_some hfind
    rw [hwl] at hmem
    exact (hpart1 compile cmds r hmem).1
  refine ⟨hchk, ?_, ?_⟩
  · simp [executeModel, safetyStage, hchk, hconf, hf]
  · simp [executeModel, safetyStage, hchk, hconf, hf]

/-- Whitelist entries and guard for the C10 witness. -/
def cmdsWL : List WhitelistCmd := [{ pattern := "p", description := some "desc" }]

/-- The rule load_whitelist builds from cmdsWL under the catch-all compiler. -/
def ruleWL : SafetyRule :=
  { matcher := fun _ => true, severity := QuerySeverity.safe,
    message := "desc", allow_with_confirmation := true }

/-- Guard whose whitelist was loaded from cmdsWL. -/
def guardWL : SecurityGuard :=
  { whitelist_rules := load_whitelist (fun _ _ => true) cmdsWL }

/-- Witness for C10: the loaded whitelist accepts the query, execute calls
the callback, and the declined callback cancels the whitelisted query. -/
theorem whitelist_rules_require_confirmation_witness :
    check_query guardWL "SELECT x" =
      (true, some ruleWL, "Query allowed by whitelist") ∧
    ExecEvent.cbCall "SELECT x" "desc" ∈
      (executeModel guardWL {} envOk "SELECT x" none false
        (some fun _ _ => Except.ok false)).2.1 ∧
    (executeModel guardWL {} envOk "SELECT x" none false
        (some fun _ _ => Except.ok false)).1 =
      Except.ok { success := false, error := some "Query cancelled by user",
                  query := "SELECT x", timestamp := 0 } :=
  whitelist_rules_require_confirmation.2 guardWL {} envOk "SELECT x" none
    (fun _ _ => Except.ok false) ruleWL (fun _ _ => true) cmdsWL
    rfl rfl rfl rfl rfl rfl
